import Mathlib

/-!
Shallow embedding of the realtime event broker and greeting lifecycle of the
greeting-card backend (Express + socket.io server, `src/unnamed/part_004`).

Modelling conventions:
- Timestamps are `Nat` (the code uses ISO strings; only ordering/identity of
  instants matters to the claims).
- `content` blobs (`z.any()` in the zod schemas) are `String`.
- Each storage write (`pool.query` INSERT/UPDATE) either succeeds or throws;
  a `writeOk : Bool` parameter selects the branch, and a thrown write is the
  `catch` path of the handler.
- A socket is a `Conn` with its authenticated identity (`socket.user.id`) and
  the set of socket.io rooms it has joined.  On connect the code runs
  `socket.join(socket.user.id)`, so a fresh connection's room list is its
  own user id (the personal channel).
- `io.emit(ev)` delivers to every registered connection; `io.to(room).emit(ev)`
  delivers to the connections that have joined `room`.  An operation returns,
  besides the new state, the list of deliveries `(connection id, event)` it
  performed, in order.
- The per-caller failure report (`socket.emit('error', ...)` on the calling
  socket, or an HTTP 500) is modelled as the `Except.error` result of the
  operation, not as a broadcast delivery: it is the error channel back to the
  caller, not an event fanned out to subscribers.
-/

/-- Greeting status enum (`z.enum(['sent', 'pending', 'delivered', 'failed'])`). -/
inductive Status
  | pending
  | sent
  | delivered
  | failed
deriving DecidableEq, Repr

/-- Greetings row (schema `greetingEntitySchema`). -/
structure Greeting where
  id : String
  content : String
  sender_id : String
  recipient_type : String
  recipient_id : String
  status : Status
  scheduled_at : Option Nat
  created_at : Nat
  updated_at : Nat
deriving DecidableEq, Repr

/-- Notifications row. -/
structure Notification where
  id : String
  user_id : String
  greeting_id : Option String
  message : String
  read_at : Option Nat
  created_at : Nat
deriving DecidableEq, Repr

/-- GroupMembers row. -/
structure GroupMember where
  id : String
  group_id : String
  user_id : String
  role : String
  joined_at : Nat
deriving DecidableEq, Repr

/-- GroupChatMessages row. -/
structure ChatMessage where
  id : String
  group_id : String
  sender_id : String
  content : String
  created_at : Nat
deriving DecidableEq, Repr

/-- Users row (the columns the websocket auth middleware selects). -/
structure User where
  id : String
  email : String
  name : String
  role : String
deriving DecidableEq, Repr

/-- A live socket.io connection: its process-lifetime id, the authenticated
identity (`socket.user.id`, immutable after the auth middleware), and the
rooms it has joined (`socket.join`). -/
structure Conn where
  cid : Nat
  identity : String
  rooms : List String
deriving DecidableEq, Repr

/-- The wire event names used by the server.  Dynamic names such as
`greeting_x_updated` and `greeting_x_status` carry the greeting id. -/
inductive EvKind
  | greeting_created
  | greeting_updated (gid : String)
  | greeting_status (gid : String)
  | notification
  | group_message
  | member_joined
  | admin_moderation_action
deriving DecidableEq, Repr

/-- Event payloads: the domain record as committed (or the moderation pair). -/
inductive Payload
  | greeting (g : Greeting)
  | notif (n : Notification)
  | message (m : ChatMessage)
  | member (m : GroupMember)
  | moderation (gid : String) (action : String)
deriving DecidableEq, Repr

/-- An ephemeral realtime event. -/
structure Event where
  kind : EvKind
  payload : Payload
deriving DecidableEq, Repr

/-- Error outcomes of the embedded operations (§7 taxonomy mapped onto the
code's failure paths). -/
inductive BrokerErr
  | persistErr
  | authRequired
  | authFailed
  | authInvalid
  | notFound
deriving DecidableEq, Repr

/-- The whole observable state: database tables plus the connection registry. -/
structure BrokerState where
  users : List User
  greetings : List Greeting
  notifications : List Notification
  groups : List String
  groupMembers : List GroupMember
  messages : List ChatMessage
  connections : List Conn
deriving DecidableEq, Repr

/-- `io.emit(e)`: deliver `e` to every registered connection. -/
def ioEmit (st : BrokerState) (e : Event) : List (Nat × Event) :=
  st.connections.map fun c => (c.cid, e)

/-- `io.to(room).emit(e)`: deliver `e` to every connection that has joined
`room`. -/
def ioToEmit (st : BrokerState) (room : String) (e : Event) : List (Nat × Event) :=
  (st.connections.filter fun c => c.rooms.contains room).map fun c => (c.cid, e)

/-- A logical dispatch target (spec §3 `Event.target`). -/
inductive Target
  | user (uid : String)
  | group (gid : String)
deriving DecidableEq, Repr

/-- Modelled from the spec: the Subscription Router's `resolve(target)`
(spec §4.2) — the code has no such component, it addresses sockets through
socket.io rooms; `resolve` is defined here over the embedded registry exactly
as §4.2 words it, to state the subscriber-set claims.  For a user target:
every connection whose identity equals the user id.  For a group target:
every connection that has joined the group's channel. -/
def resolve (st : BrokerState) : Target → List Nat
  | .user uid => (st.connections.filter fun c => c.identity == uid).map Conn.cid
  | .group gid => (st.connections.filter fun c => c.rooms.contains gid).map Conn.cid

/-- Post-validation body of `POST /api/greetings`
(`createGreetingInputSchema`: `status` is a required client-supplied field,
`scheduled_at` optional nullable). -/
structure CreateGreetingInput where
  id : String
  content : String
  sender_id : String
  recipient_type : String
  recipient_id : String
  status : Status
  scheduled_at : Option Nat
deriving DecidableEq, Repr

/-- `POST /api/greetings` handler.  Inserts the greeting with the
client-supplied `status`, broadcasts `greeting_created` via `io.emit` to all
connections, and — when `recipient_type === 'user'` — inserts a Notification
row and emits a `notification` event to the recipient's personal room.
`greetingWriteOk` / `notifWriteOk` select whether each INSERT succeeds or
throws; a throw jumps to the catch (HTTP 500), leaving whatever already
happened in place. -/
def postGreeting (st : BrokerState) (inp : CreateGreetingInput)
    (greetingWriteOk notifWriteOk : Bool) (notificationId : String) (now : Nat) :
    BrokerState × List (Nat × Event) × Except BrokerErr Greeting :=
  if greetingWriteOk then
    let g : Greeting :=
      { id := inp.id, content := inp.content, sender_id := inp.sender_id
        recipient_type := inp.recipient_type, recipient_id := inp.recipient_id
        status := inp.status, scheduled_at := inp.scheduled_at
        created_at := now, updated_at := now }
    let st1 := { st with greetings := st.greetings ++ [g] }
    let sent1 := ioEmit st1 ⟨.greeting_created, .greeting g⟩
    if inp.recipient_type == "user" then
      if notifWriteOk then
        let n : Notification :=
          { id := notificationId, user_id := inp.recipient_id
            greeting_id := some inp.id, message := "You received a new greeting!"
            read_at := none, created_at := now }
        let st2 := { st1 with notifications := st1.notifications ++ [n] }
        (st2, sent1 ++ ioToEmit st2 inp.recipient_id ⟨.notification, .notif n⟩, .ok g)
      else
        (st1, sent1, .error .persistErr)
    else
      (st1, sent1, .ok g)
  else
    (st, [], .error .persistErr)

/-- Post-validation body of `PUT /api/greetings/:greeting_id`
(`updateGreetingInputSchema`, the fields the handler applies). -/
structure UpdateGreetingInput where
  content : Option String
  status : Option Status
  scheduled_at : Option (Option Nat)
deriving DecidableEq, Repr

/-- `PUT /api/greetings/:greeting_id` handler.  Applies the supplied fields
unconditionally (no transition validation), then broadcasts
`greeting_{id}_updated` via `io.emit` to all connections.  Zero matched rows
is the 404 path; a thrown UPDATE is the 500 path. -/
def putGreeting (st : BrokerState) (writeOk : Bool) (greeting_id : String)
    (inp : UpdateGreetingInput) (now : Nat) :
    BrokerState × List (Nat × Event) × Except BrokerErr Greeting :=
  if writeOk then
    match st.greetings.find? (fun g => g.id == greeting_id) with
    | some g =>
        let g' : Greeting :=
          { g with
            content := inp.content.getD g.content
            status := inp.status.getD g.status
            scheduled_at := inp.scheduled_at.getD g.scheduled_at
            updated_at := now }
        let gs := st.greetings.map (fun h => if h.id == greeting_id then g' else h)
        let st' := { st with greetings := gs }
        (st', ioEmit st' ⟨.greeting_updated greeting_id, .greeting g'⟩, .ok g')
    | none => (st, [], .error .notFound)
  else
    (st, [], .error .persistErr)

/-- Websocket `update_greeting_status` handler.  Runs
`UPDATE Greetings SET status = $1, updated_at = $2 WHERE id = $3` with no
transition validation, and when a row matched broadcasts
`greeting_{id}_status` via `io.emit` to all connections.  A throw is the
catch path (`socket.emit('error', ...)` to the caller, modelled as the
error result); zero matched rows silently emits nothing. -/
def updateGreetingStatusWS (st : BrokerState) (writeOk : Bool)
    (greeting_id : String) (status : Status) (now : Nat) :
    BrokerState × List (Nat × Event) × Except BrokerErr Unit :=
  if writeOk then
    match st.greetings.find? (fun g => g.id == greeting_id) with
    | some g =>
        let g' := { g with status := status, updated_at := now }
        let gs := st.greetings.map (fun h => if h.id == greeting_id then g' else h)
        let st' := { st with greetings := gs }
        (st', ioEmit st' ⟨.greeting_status greeting_id, .greeting g'⟩, .ok ())
    | none => (st, [], .ok ())
  else
    (st, [], .error .persistErr)

/-- Post-validation body of the websocket `send_group_message` payload. -/
structure CreateChatMessageInput where
  id : String
  group_id : String
  sender_id : String
  content : String
deriving DecidableEq, Repr

/-- Websocket `send_group_message` handler: insert the message, then
`io.to(group_id).emit('group_message', message)` — delivered to exactly the
connections that have joined the group's room. -/
def sendGroupMessage (st : BrokerState) (writeOk : Bool)
    (inp : CreateChatMessageInput) (now : Nat) :
    BrokerState × List (Nat × Event) × Except BrokerErr ChatMessage :=
  if writeOk then
    let m : ChatMessage :=
      { id := inp.id, group_id := inp.group_id, sender_id := inp.sender_id
        content := inp.content, created_at := now }
    let st' := { st with messages := st.messages ++ [m] }
    (st', ioToEmit st' inp.group_id ⟨.group_message, .message m⟩, .ok m)
  else
    (st, [], .error .persistErr)

/-- Websocket `join_group` handler: `socket.join(group_id)` — adds the room
to the connection unconditionally (no membership check, no failure path;
socket.io rooms are sets, so a repeated join is a no-op). -/
def joinGroup (st : BrokerState) (cid : Nat) (group_id : String) : BrokerState :=
  { st with connections := st.connections.map (fun c =>
      if c.cid == cid then
        { c with rooms := if c.rooms.contains group_id then c.rooms
                          else c.rooms ++ [group_id] }
      else c) }

/-- Websocket `leave_group` handler: `socket.leave(group_id)`. -/
def leaveGroup (st : BrokerState) (cid : Nat) (group_id : String) : BrokerState :=
  { st with connections := st.connections.map (fun c =>
      if c.cid == cid then
        { c with rooms := c.rooms.filter fun r => r != group_id }
      else c) }

/-- The websocket auth middleware (`io.use`): read the handshake token,
verify it (`jwt.verify`, modelled as `verify : String → Option String`
returning the decoded `user_id`, `none` when verification throws), then look
the user up in Users.  Any failure rejects the connection. -/
def authResolve (st : BrokerState) (verify : String → Option String)
    (token : Option String) : Except BrokerErr User :=
  match token with
  | none => .error .authRequired
  | some t =>
    match verify t with
    | none => .error .authFailed
    | some uid =>
      match st.users.find? (fun u => u.id == uid) with
      | none => .error .authInvalid
      | some u => .ok u

/-- `io.on('connection')`: runs only for sockets the middleware accepted.
Registers a fresh connection bound to the resolved identity and joins its
personal room (`socket.join(socket.user.id)`).  A rejected handshake
registers nothing. -/
def handleConnect (st : BrokerState) (verify : String → Option String)
    (token : Option String) (newCid : Nat) :
    BrokerState × Except BrokerErr Nat :=
  match authResolve st verify token with
  | .error e => (st, .error e)
  | .ok u =>
      ({ st with connections := st.connections ++ [⟨newCid, u.id, [u.id]⟩] },
       .ok newCid)

/-- Socket `disconnect`: the connection leaves the registry (socket.io drops
it from every room). -/
def handleDisconnect (st : BrokerState) (cid : Nat) : BrokerState :=
  { st with connections := st.connections.filter fun c => c.cid != cid }

/-- `POST /api/groups/:group_id/members` handler: verify the group and user
exist, insert the GroupMembers row, then
`io.to(group_id).emit('member_joined', member)`. -/
def addGroupMember (st : BrokerState) (writeOk : Bool) (group_id : String)
    (user_id : String) (role : String) (memberId : String) (now : Nat) :
    BrokerState × List (Nat × Event) × Except BrokerErr GroupMember :=
  if st.groups.contains group_id then
    if (st.users.find? (fun u => u.id == user_id)).isSome then
      if writeOk then
        let m : GroupMember :=
          { id := memberId, group_id := group_id, user_id := user_id
            role := role, joined_at := now }
        let st' := { st with groupMembers := st.groupMembers ++ [m] }
        (st', ioToEmit st' group_id ⟨.member_joined, .member m⟩, .ok m)
      else
        (st, [], .error .persistErr)
    else
      (st, [], .error .notFound)
  else
    (st, [], .error .notFound)

/-- `POST /api/notifications/:notification_id/mark-read` handler:
`UPDATE Notifications SET read_at = $1 WHERE id = $2 AND user_id = $3` with
`$1 = read_at || now` — the supplied value, or the current instant when
absent.  No check that `read_at` is currently null: the write is
unconditional. -/
def markNotificationRead (st : BrokerState) (writeOk : Bool)
    (notification_id : String) (req_user_id : String)
    (read_at : Option Nat) (now : Nat) :
    BrokerState × Except BrokerErr Notification :=
  if writeOk then
    let t := read_at.getD now
    match st.notifications.find?
        (fun n => n.id == notification_id && n.user_id == req_user_id) with
    | some n =>
        let n' := { n with read_at := some t }
        let ns := st.notifications.map (fun m =>
          if m.id == notification_id && m.user_id == req_user_id then n' else m)
        ({ st with notifications := ns },
         .ok n')
    | none => (st, .error .notFound)
  else
    (st, .error .persistErr)

deriving instance DecidableEq for Except

/-! ### Helper lemmas -/

/-- Replacing every greeting whose id matches by a fixed record `c` with the
same id turns `find?` on the rewritten table into a presence test on the
original (the shape of the embedded SQL `UPDATE ... WHERE id = _`). -/
theorem find?_greeting_update (l : List Greeting) (gid : String) (c : Greeting)
    (hc : (c.id == gid) = true) :
    (l.map fun x => if x.id == gid then c else x).find? (fun x => x.id == gid) =
      if (l.find? (fun x => x.id == gid)).isSome then some c else none := by
  induction l with
  | nil => rfl
  | cons a l ih =>
    by_cases h : (a.id == gid) = true
    · rw [List.map_cons, if_pos h,
          @List.find?_cons_of_pos _ (fun x => x.id == gid) c _ hc,
          @List.find?_cons_of_pos _ (fun x => x.id == gid) a _ h]
      rfl
    · rw [List.map_cons, if_neg h,
          @List.find?_cons_of_neg _ (fun x => x.id == gid) a _ h, ih,
          @List.find?_cons_of_neg _ (fun x => x.id == gid) a _ h]

/-- The same update-shape lemma for the Notifications table, whose `UPDATE`
matches on both the notification id and the owning user id. -/
theorem find?_notif_update (l : List Notification) (nid uid : String)
    (c : Notification) (hc : (c.id == nid && c.user_id == uid) = true) :
    (l.map fun x => if x.id == nid && x.user_id == uid then c else x).find?
        (fun x => x.id == nid && x.user_id == uid) =
      if (l.find? (fun x => x.id == nid && x.user_id == uid)).isSome
      then some c else none := by
  induction l with
  | nil => rfl
  | cons a l ih =>
    by_cases h : (a.id == nid && a.user_id == uid) = true
    · rw [List.map_cons, if_pos h,
          @List.find?_cons_of_pos _ (fun x => x.id == nid && x.user_id == uid) c _ hc,
          @List.find?_cons_of_pos _ (fun x => x.id == nid && x.user_id == uid) a _ h]
      rfl
    · rw [List.map_cons, if_neg h,
          @List.find?_cons_of_neg _ (fun x => x.id == nid && x.user_id == uid) a _ h, ih,
          @List.find?_cons_of_neg _ (fun x => x.id == nid && x.user_id == uid) a _ h]

/-! ### C3: initial status of a created greeting -/

/-- C3 (counterexample): the claim says a creation with no `scheduled_at`
stores status `sent`; the code stores whatever status the client supplied —
here `delivered` — so the initial status is not determined by the scheduling
field. -/
theorem C3_counterexample :
    ((postGreeting ⟨[], [], [], [], [], [], []⟩
        ⟨"g1", "hi", "u1", "group", "gr1", Status.delivered, none⟩
        true true "n1" 10).1.greetings.find?
          (fun g => g.id == "g1")).map Greeting.status = some Status.delivered
    ∧ Status.delivered ≠ Status.sent := by
  exact ⟨rfl, by decide⟩

/-- C3 (amended): the initial stored status of a created greeting is exactly
the client-supplied `status` field of the request body, regardless of
`scheduled_at`; `scheduled_at` is stored verbatim and plays no role in the
choice of status. -/
theorem C3_status_is_client_supplied (st : BrokerState)
    (inp : CreateGreetingInput) (nOk : Bool) (nid : String) (now : Nat) :
    (∀ g, (postGreeting st inp true nOk nid now).2.2 = Except.ok g →
        g.status = inp.status ∧ g.scheduled_at = inp.scheduled_at)
    ∧ ((postGreeting st inp true nOk nid now).1.greetings.getLast?).map
        Greeting.status = some inp.status := by
  constructor
  · intro g hg
    by_cases h1 : (inp.recipient_type == "user") = true
    · cases nOk
      · simp [postGreeting, h1] at hg
      · simp [postGreeting, h1] at hg
        simp [← hg]
    · simp [postGreeting, h1] at hg
      simp [← hg]
  · by_cases h1 : (inp.recipient_type == "user") = true
    · cases nOk <;> simp [postGreeting, h1, List.getLast?_concat]
    · simp [postGreeting, h1, List.getLast?_concat]

/-- C3 witness: instantiating the amended theorem at a concrete creation
request whose client-supplied status is `pending` and whose `scheduled_at`
is absent. -/
theorem C3_status_is_client_supplied_witness :
    (⟨"g1", "hi", "u1", "user", "u2", Status.pending, none, 10, 10⟩ :
        Greeting).status = Status.pending
    ∧ ((postGreeting ⟨[], [], [], [], [], [], []⟩
          ⟨"g1", "hi", "u1", "user", "u2", Status.pending, none⟩
          true true "n1" 10).1.greetings.getLast?).map Greeting.status
        = some Status.pending :=
  ⟨((C3_status_is_client_supplied ⟨[], [], [], [], [], [], []⟩
      ⟨"g1", "hi", "u1", "user", "u2", Status.pending, none⟩
      true "n1" 10).1 _ rfl).1,
   (C3_status_is_client_supplied ⟨[], [], [], [], [], [], []⟩
      ⟨"g1", "hi", "u1", "user", "u2", Status.pending, none⟩
      true "n1" 10).2⟩

/-! ### C2: terminality of `delivered` and `failed` -/

/-- C2 (counterexample): a greeting stored with status `delivered` is updated
to `pending` by the `update_greeting_status` handler; the operation reports
success (no `InvalidTransition`) and the stored status changes, so
`delivered` is not terminal. -/
theorem C2_counterexample :
    (updateGreetingStatusWS
        ⟨[], [⟨"g1", "hi", "u1", "user", "u2", Status.delivered, none, 0, 0⟩],
         [], [], [], [], []⟩ true "g1" Status.pending 5).2.2 = Except.ok ()
    ∧ ((updateGreetingStatusWS
        ⟨[], [⟨"g1", "hi", "u1", "user", "u2", Status.delivered, none, 0, 0⟩],
         [], [], [], [], []⟩ true "g1" Status.pending 5).1.greetings.find?
          (fun g => g.id == "g1")).map Greeting.status = some Status.pending := by
  exact ⟨rfl, rfl⟩

/-- C2 (amended): neither status-update path validates transitions: for a
stored greeting in any status — `delivered` and `failed` included — a
status-change attempt with a successful storage write is accepted and stores
the requested the requested status; no attempt is ever
rejected with `InvalidTransition` (the code has no such outcome). -/
theorem C2_no_transition_validation (st : BrokerState) (gid : String)
    (s : Status) (now : Nat)
    (h : (st.greetings.find? (fun g => g.id == gid)).isSome = true) :
    (updateGreetingStatusWS st true gid s now).2.2 = Except.ok ()
    ∧ ((updateGreetingStatusWS st true gid s now).1.greetings.find?
        (fun g => g.id == gid)).map Greeting.status = some s
    ∧ (∀ inp : UpdateGreetingInput, inp.status = some s →
        ((putGreeting st true gid inp now).1.greetings.find?
          (fun g => g.id == gid)).map Greeting.status = some s) := by
  cases hfind : st.greetings.find? (fun g => g.id == gid) with
  | none => rw [hfind] at h; simp at h
  | some g =>
    have hpg : (g.id == gid) = true := by simpa using List.find?_some hfind
    refine ⟨?_, ?_, ?_⟩
    · simp [updateGreetingStatusWS, hfind]
    · rw [show (updateGreetingStatusWS st true gid s now).1.greetings =
            st.greetings.map (fun x => if x.id == gid then
              { g with status := s, updated_at := now } else x) by
          simp [updateGreetingStatusWS, hfind]]
      rw [find?_greeting_update st.greetings gid
            { g with status := s, updated_at := now } hpg, hfind]
      rfl
    · intro inp hs
      rw [show (putGreeting st true gid inp now).1.greetings =
            st.greetings.map (fun x => if x.id == gid then
              { g with
                content := inp.content.getD g.content
                status := inp.status.getD g.status
                scheduled_at := inp.scheduled_at.getD g.scheduled_at
                updated_at := now } else x) by
          simp [putGreeting, hfind]]
      rw [find?_greeting_update st.greetings gid
            { g with
              content := inp.content.getD g.content
              status := inp.status.getD g.status
              scheduled_at := inp.scheduled_at.getD g.scheduled_at
              updated_at := now } hpg, hfind]
      simp [hs]

/-- C2 witness: applying the amended theorem to a concrete state holding a
`delivered` greeting, requesting status `sent` through both update paths. -/
theorem C2_no_transition_validation_witness :
    ((updateGreetingStatusWS
        ⟨[], [⟨"g1", "hi", "u1", "user", "u2", Status.delivered, none, 0, 0⟩],
         [], [], [], [], []⟩ true "g1" Status.sent 5).1.greetings.find?
          (fun g => g.id == "g1")).map Greeting.status = some Status.sent
    ∧ ((putGreeting
        ⟨[], [⟨"g1", "hi", "u1", "user", "u2", Status.delivered, none, 0, 0⟩],
         [], [], [], [], []⟩ true "g1" ⟨none, some Status.sent, none⟩
          5).1.greetings.find?
          (fun g => g.id == "g1")).map Greeting.status = some Status.sent :=
  ⟨(C2_no_transition_validation
      ⟨[], [⟨"g1", "hi", "u1", "user", "u2", Status.delivered, none, 0, 0⟩],
       [], [], [], [], []⟩ "g1" Status.sent 5 (by decide)).2.1,
   (C2_no_transition_validation
      ⟨[], [⟨"g1", "hi", "u1", "user", "u2", Status.delivered, none, 0, 0⟩],
       [], [], [], [], []⟩ "g1" Status.sent 5 (by decide)).2.2
      ⟨none, some Status.sent, none⟩ rfl⟩

/-! ### C1: who observes a greeting status-change event -/

/-- C1 (counterexample): a status change on a greeting addressed to user
`u1` (sender `s1`) is observed by connection 2, whose user `w1` is neither
the sender nor a subscriber of the recipient target — connection 2 is in
neither `resolve(user u1)` nor `resolve(user s1)` — because the handler
broadcasts with `io.emit` to every connection. -/
theorem C1_counterexample :
    ((2, (⟨EvKind.greeting_status "g1",
        Payload.greeting ⟨"g1", "hi", "s1", "user", "u1", Status.delivered,
          none, 0, 5⟩⟩ : Event)) ∈
      (updateGreetingStatusWS
        ⟨[], [⟨"g1", "hi", "s1", "user", "u1", Status.sent, none, 0, 0⟩],
         [], [], [], [],
         [⟨1, "u1", ["u1"]⟩, ⟨2, "w1", ["w1"]⟩]⟩
        true "g1" Status.delivered 5).2.1)
    ∧ 2 ∉ resolve
        ⟨[], [⟨"g1", "hi", "s1", "user", "u1", Status.sent, none, 0, 0⟩],
         [], [], [], [],
         [⟨1, "u1", ["u1"]⟩, ⟨2, "w1", ["w1"]⟩]⟩ (Target.user "u1")
    ∧ 2 ∉ resolve
        ⟨[], [⟨"g1", "hi", "s1", "user", "u1", Status.sent, none, 0, 0⟩],
         [], [], [], [],
         [⟨1, "u1", ["u1"]⟩, ⟨2, "w1", ["w1"]⟩]⟩ (Target.user "s1") := by
  decide

/-- C1 (amended): both status-update paths broadcast the status-change event
with `io.emit`: it is delivered to every connection registered at dispatch
time, whether or not the connection is in `resolve(T)`; only a connection
absent from the registry at dispatch (e.g. one that disconnected before)
receives nothing. -/
theorem C1_status_events_broadcast_to_all (st : BrokerState) (gid : String)
    (s : Status) (now : Nat) (inp : UpdateGreetingInput) :
    ((updateGreetingStatusWS st true gid s now).2.1.map Prod.fst =
      if (st.greetings.find? (fun g => g.id == gid)).isSome
      then st.connections.map Conn.cid else [])
    ∧ ((putGreeting st true gid inp now).2.1.map Prod.fst =
      if (st.greetings.find? (fun g => g.id == gid)).isSome
      then st.connections.map Conn.cid else []) := by
  constructor
  · cases hfind : st.greetings.find? (fun g => g.id == gid) with
    | none => simp [updateGreetingStatusWS, hfind]
    | some g => simp [updateGreetingStatusWS, hfind, ioEmit]
  · cases hfind : st.greetings.find? (fun g => g.id == gid) with
    | none => simp [putGreeting, hfind]
    | some g => simp [putGreeting, hfind, ioEmit]

/-! ### C4: all-or-nothing notification materialization -/

/-- C4 (counterexample): with the Notification INSERT failing, the
recipient's connection (id 1, user `u1`) still observes the
`greeting_created` broadcast — an event did reach the recipient's
connections even though no Notification record exists afterward. -/
theorem C4_counterexample :
    ((1, (⟨EvKind.greeting_created,
        Payload.greeting ⟨"g1", "hi", "s1", "user", "u1", Status.sent,
          none, 7, 7⟩⟩ : Event)) ∈
      (postGreeting ⟨[], [], [], [], [], [], [⟨1, "u1", ["u1"]⟩]⟩
        ⟨"g1", "hi", "s1", "user", "u1", Status.sent, none⟩
        true false "n1" 7).2.1)
    ∧ (postGreeting ⟨[], [], [], [], [], [], [⟨1, "u1", ["u1"]⟩]⟩
        ⟨"g1", "hi", "s1", "user", "u1", Status.sent, none⟩
        true false "n1" 7).1.notifications = [] := by
  decide

/-- C4 (amended): when the Notification INSERT fails during a user-recipient
creation, no Notification record exists afterward and no `notification`
event is emitted — every delivery of the operation is the `greeting_created`
broadcast — but that broadcast has already reached every connection,
including the recipient's; the operation then reports the failure. -/
theorem C4_notif_failure_not_all_or_nothing (st : BrokerState)
    (inp : CreateGreetingInput) (nid : String) (now : Nat)
    (h : (inp.recipient_type == "user") = true) :
    (postGreeting st inp true false nid now).1.notifications = st.notifications
    ∧ (∀ p ∈ (postGreeting st inp true false nid now).2.1,
        p.2.kind = EvKind.greeting_created)
    ∧ (postGreeting st inp true false nid now).2.2 =
        Except.error BrokerErr.persistErr
    ∧ (postGreeting st inp true false nid now).2.1.map Prod.fst =
        st.connections.map Conn.cid := by
  refine ⟨?_, ?_, ?_, ?_⟩ <;> simp [postGreeting, h, ioEmit]

/-- C4 witness: the amended theorem applied to the concrete failing-INSERT
scenario with one recipient connection. -/
theorem C4_notif_failure_not_all_or_nothing_witness :
    (postGreeting ⟨[], [], [], [], [], [], [⟨1, "u1", ["u1"]⟩]⟩
        ⟨"g1", "hi", "s1", "user", "u1", Status.sent, none⟩
        true false "n1" 7).1.notifications = []
    ∧ (postGreeting ⟨[], [], [], [], [], [], [⟨1, "u1", ["u1"]⟩]⟩
        ⟨"g1", "hi", "s1", "user", "u1", Status.sent, none⟩
        true false "n1" 7).2.1.map Prod.fst = [1] :=
  ⟨(C4_notif_failure_not_all_or_nothing
      ⟨[], [], [], [], [], [], [⟨1, "u1", ["u1"]⟩]⟩
      ⟨"g1", "hi", "s1", "user", "u1", Status.sent, none⟩
      "n1" 7 (by decide)).1,
   (C4_notif_failure_not_all_or_nothing
      ⟨[], [], [], [], [], [], [⟨1, "u1", ["u1"]⟩]⟩
      ⟨"g1", "hi", "s1", "user", "u1", Status.sent, none⟩
      "n1" 7 (by decide)).2.2.2⟩

/-! ### C5: persistence before emission, no event on write failure -/

/-- C5 (confirmed): in both status-setting paths the storage write comes
first.  If the write fails the operation returns the persistence error, the
state is exactly the prior state and nothing is delivered.  If it succeeds:
a creation persists the new record and its deliveries are exactly one
`greeting_created` event — whose payload is the persisted record — fanned
out once to each connection, followed only by `notification`-kind pushes
(no second status-change event); a status update persists the new status
and delivers exactly one `greeting_status` event carrying the persisted
record, once to each connection. -/
theorem C5_persist_before_emit (st : BrokerState) (gid : String) (s : Status)
    (now : Nat) (inp : CreateGreetingInput) (nOk : Bool) (nid : String) :
    (updateGreetingStatusWS st false gid s now =
      (st, [], Except.error BrokerErr.persistErr))
    ∧ (postGreeting st inp false nOk nid now =
      (st, [], Except.error BrokerErr.persistErr))
    ∧ ((postGreeting st inp true nOk nid now).1.greetings =
        st.greetings ++ [⟨inp.id, inp.content, inp.sender_id,
          inp.recipient_type, inp.recipient_id, inp.status,
          inp.scheduled_at, now, now⟩])
    ∧ (∃ rest, (postGreeting st inp true nOk nid now).2.1 =
        st.connections.map (fun c => (c.cid,
          (⟨EvKind.greeting_created,
            Payload.greeting ⟨inp.id, inp.content, inp.sender_id,
              inp.recipient_type, inp.recipient_id, inp.status,
              inp.scheduled_at, now, now⟩⟩ : Event))) ++ rest
        ∧ ∀ p ∈ rest, p.2.kind = EvKind.notification)
    ∧ (∀ g, st.greetings.find? (fun x => x.id == gid) = some g →
        (updateGreetingStatusWS st true gid s now).1.greetings =
          st.greetings.map (fun x => if x.id == gid then
            { g with status := s, updated_at := now } else x)
        ∧ (updateGreetingStatusWS st true gid s now).2.1 =
            st.connections.map (fun c => (c.cid,
              (⟨EvKind.greeting_status gid,
                Payload.greeting { g with status := s, updated_at := now }⟩ :
                Event)))) := by
  refine ⟨rfl, rfl, ?_, ?_, ?_⟩
  · by_cases h1 : (inp.recipient_type == "user") = true
    · cases nOk <;> simp [postGreeting, h1]
    · simp [postGreeting, h1]
  · by_cases h1 : (inp.recipient_type == "user") = true
    · cases nOk with
      | false => exact ⟨[], by simp [postGreeting, h1, ioEmit], by simp⟩
      | true =>
        refine ⟨(st.connections.filter fun c =>
            c.rooms.contains inp.recipient_id).map (fun c => (c.cid,
              (⟨EvKind.notification,
                Payload.notif ⟨nid, inp.recipient_id, some inp.id,
                  "You received a new greeting!", none, now⟩⟩ : Event))),
          ?_, ?_⟩
        · simp [postGreeting, h1, ioEmit, ioToEmit]
        · intro p hp
          rcases List.mem_map.1 hp with ⟨c, _, rfl⟩
          rfl
    · exact ⟨[], by simp [postGreeting, h1, ioEmit], by simp⟩
  · intro g hfind
    constructor
    · simp [updateGreetingStatusWS, hfind]
    · simp [updateGreetingStatusWS, hfind, ioEmit]

/-- C5 witness: the theorem applied to concrete states — a failing write
leaves the single `sent` greeting and delivers nothing; a successful status
update on the same state stores `delivered` and delivers the one event to
the one connection; a successful creation appends the persisted record. -/
theorem C5_persist_before_emit_witness :
    (updateGreetingStatusWS
        ⟨[], [⟨"g1", "hi", "s1", "user", "u1", Status.sent, none, 0, 0⟩],
         [], [], [], [], [⟨1, "u1", ["u1"]⟩]⟩ false "g1" Status.delivered 5 =
      (⟨[], [⟨"g1", "hi", "s1", "user", "u1", Status.sent, none, 0, 0⟩],
        [], [], [], [], [⟨1, "u1", ["u1"]⟩]⟩, [],
       Except.error BrokerErr.persistErr))
    ∧ (updateGreetingStatusWS
        ⟨[], [⟨"g1", "hi", "s1", "user", "u1", Status.sent, none, 0, 0⟩],
         [], [], [], [], [⟨1, "u1", ["u1"]⟩]⟩ true "g1" Status.delivered 5).2.1 =
      [(1, (⟨EvKind.greeting_status "g1",
        Payload.greeting ⟨"g1", "hi", "s1", "user", "u1", Status.delivered,
          none, 0, 5⟩⟩ : Event))]
    ∧ (postGreeting
        ⟨[], [⟨"g1", "hi", "s1", "user", "u1", Status.sent, none, 0, 0⟩],
         [], [], [], [], [⟨1, "u1", ["u1"]⟩]⟩
        ⟨"gX", "x", "sX", "user", "uX", Status.sent, none⟩
        true true "nX" 5).1.greetings =
      [⟨"g1", "hi", "s1", "user", "u1", Status.sent, none, 0, 0⟩,
       ⟨"gX", "x", "sX", "user", "uX", Status.sent, none, 5, 5⟩] :=
  ⟨(C5_persist_before_emit
      ⟨[], [⟨"g1", "hi", "s1", "user", "u1", Status.sent, none, 0, 0⟩],
       [], [], [], [], [⟨1, "u1", ["u1"]⟩]⟩ "g1" Status.delivered 5
      ⟨"gX", "x", "sX", "user", "uX", Status.sent, none⟩ true "nX").1,
   ((C5_persist_before_emit
      ⟨[], [⟨"g1", "hi", "s1", "user", "u1", Status.sent, none, 0, 0⟩],
       [], [], [], [], [⟨1, "u1", ["u1"]⟩]⟩ "g1" Status.delivered 5
      ⟨"gX", "x", "sX", "user", "uX", Status.sent, none⟩ true "nX").2.2.2.2
      _ rfl).2,
   (C5_persist_before_emit
      ⟨[], [⟨"g1", "hi", "s1", "user", "u1", Status.sent, none, 0, 0⟩],
       [], [], [], [], [⟨1, "u1", ["u1"]⟩]⟩ "g1" Status.delivered 5
      ⟨"gX", "x", "sX", "user", "uX", Status.sent, none⟩ true "nX").2.2.1⟩

/-! ### C6: who observes a group chat message -/

/-- C6 (counterexample): user `u3` is not a member of group `G` (no
GroupMembers row), but its connection 4 joined `G`'s room through
`join_group` — which checks nothing — and therefore observes the group
message, contradicting the claim that no connection of a non-member
observes it. -/
theorem C6_counterexample :
    ((4, (⟨EvKind.group_message,
        Payload.message ⟨"msg1", "G", "u1", "yo", 3⟩⟩ : Event)) ∈
      (sendGroupMessage
        (joinGroup
          ⟨[], [], [], ["G"],
           [⟨"m1", "G", "u1", "member", 0⟩, ⟨"m2", "G", "u2", "member", 0⟩],
           [],
           [⟨1, "u1", ["u1", "G"]⟩, ⟨2, "u1", ["u1", "G"]⟩,
            ⟨3, "u2", ["u2", "G"]⟩, ⟨4, "u3", ["u3"]⟩]⟩ 4 "G")
        true ⟨"msg1", "G", "u1", "yo"⟩ 3).2.1)
    ∧ (List.find? (fun m => m.group_id == "G" && m.user_id == "u3")
        [⟨"m1", "G", "u1", "member", 0⟩,
         (⟨"m2", "G", "u2", "member", 0⟩ : GroupMember)] = none) := by
  decide

/-- C6 (amended): a posted group chat message is observed by exactly the
connections that have joined the group's room at dispatch time — the
router-style subscriber set `resolve(group G)` — irrespective of whether
their users are recorded members of the group in storage. -/
theorem C6_message_to_joined_connections (st : BrokerState)
    (inp : CreateChatMessageInput) (now : Nat) :
    (sendGroupMessage st true inp now).2.1.map Prod.fst =
      resolve st (Target.group inp.group_id) := by
  simp [sendGroupMessage, ioToEmit, resolve]

/-! ### C7: connection registration requires identity resolution -/

/-- C7 (confirmed): the websocket middleware gates registration.  A missing
token is rejected outright; any failed identity resolution (bad token, or no
matching user row) leaves the state — in particular the registry —
untouched and returns the error; a successful resolution registers exactly
one new Connection bound to the resolved user's id, joined to its personal
room, and the resolved user really is the Users row matching the decoded
token. -/
theorem C7_registration_requires_auth (st : BrokerState)
    (verify : String → Option String) (token : Option String) (newCid : Nat) :
    (token = none → handleConnect st verify token newCid =
        (st, Except.error BrokerErr.authRequired))
    ∧ (∀ e, authResolve st verify token = Except.error e →
        (handleConnect st verify token newCid).1 = st
        ∧ (handleConnect st verify token newCid).2 = Except.error e)
    ∧ (∀ u, authResolve st verify token = Except.ok u →
        (handleConnect st verify token newCid).1.connections =
          st.connections ++ [⟨newCid, u.id, [u.id]⟩]
        ∧ (handleConnect st verify token newCid).2 = Except.ok newCid
        ∧ (∃ t, token = some t ∧ ∃ uid, verify t = some uid ∧
            st.users.find? (fun x => x.id == uid) = some u)) := by
  refine ⟨?_, ?_, ?_⟩
  · intro h
    subst h
    rfl
  · intro e he
    constructor <;> simp [handleConnect, he]
  · intro u hu
    refine ⟨?_, ?_, ?_⟩
    · simp [handleConnect, hu]
    · simp [handleConnect, hu]
    · cases token with
      | none => simp [authResolve] at hu
      | some t =>
        cases hv : verify t with
        | none => simp [authResolve, hv] at hu
        | some uid =>
          cases hf : st.users.find? (fun x => x.id == uid) with
          | none => simp [authResolve, hv, hf] at hu
          | some u' =>
            have huu : u' = u := by simpa [authResolve, hv, hf] using hu
            exact ⟨t, rfl, uid, hv, by rw [hf, huu]⟩

/-- C7 witness: a concrete run — a missing token registers nothing, and a
valid token for the one known user registers a connection bound to that
user's identity. -/
theorem C7_registration_requires_auth_witness :
    (handleConnect ⟨[⟨"u1", "a@x", "Alice", "user"⟩], [], [], [], [], [], []⟩
        (fun t => if t == "tok" then some "u1" else none) none 7 =
      (⟨[⟨"u1", "a@x", "Alice", "user"⟩], [], [], [], [], [], []⟩,
       Except.error BrokerErr.authRequired))
    ∧ (handleConnect ⟨[⟨"u1", "a@x", "Alice", "user"⟩], [], [], [], [], [], []⟩
        (fun t => if t == "tok" then some "u1" else none) (some "tok")
        7).1.connections = [⟨7, "u1", ["u1"]⟩] :=
  ⟨(C7_registration_requires_auth
      ⟨[⟨"u1", "a@x", "Alice", "user"⟩], [], [], [], [], [], []⟩
      (fun t => if t == "tok" then some "u1" else none) none 7).1 rfl,
   ((C7_registration_requires_auth
      ⟨[⟨"u1", "a@x", "Alice", "user"⟩], [], [], [], [], [], []⟩
      (fun t => if t == "tok" then some "u1" else none) (some "tok") 7).2.2
      ⟨"u1", "a@x", "Alice", "user"⟩ rfl).1⟩

/-! ### C8: the Notification Materializer runs exactly for user recipients -/

/-- C8 (confirmed): a creation whose recipient type is `user` (with both
writes succeeding) appends exactly one Notification row — for the recipient
user, referencing the greeting, with `read_at` null — and a creation whose
recipient type is anything else (e.g. `group`) leaves the Notifications
table unchanged whatever the notification-write outcome. -/
theorem C8_materializer_iff_user_recipient (st : BrokerState)
    (inp : CreateGreetingInput) (nid : String) (now : Nat) :
    ((inp.recipient_type == "user") = true →
      (postGreeting st inp true true nid now).1.notifications =
        st.notifications ++ [⟨nid, inp.recipient_id, some inp.id,
          "You received a new greeting!", none, now⟩])
    ∧ ((inp.recipient_type == "user") = false →
      ∀ nOk, (postGreeting st inp true nOk nid now).1.notifications =
        st.notifications) := by
  constructor
  · intro h
    simp [postGreeting, h]
  · intro h nOk
    simp [postGreeting, h]

/-- C8 witness: the theorem applied to a user-recipient creation (one row,
`read_at` null) and to a group-recipient creation (no row). -/
theorem C8_materializer_iff_user_recipient_witness :
    (postGreeting ⟨[], [], [], [], [], [], []⟩
        ⟨"g1", "hi", "s1", "user", "u1", Status.sent, none⟩
        true true "n1" 7).1.notifications =
      [⟨"n1", "u1", some "g1", "You received a new greeting!", none, 7⟩]
    ∧ (postGreeting ⟨[], [], [], [], [], [], []⟩
        ⟨"g2", "hi", "s1", "group", "G", Status.sent, none⟩
        true true "n2" 7).1.notifications = [] :=
  ⟨(C8_materializer_iff_user_recipient ⟨[], [], [], [], [], [], []⟩
      ⟨"g1", "hi", "s1", "user", "u1", Status.sent, none⟩ "n1" 7).1 rfl,
   (C8_materializer_iff_user_recipient ⟨[], [], [], [], [], [], []⟩
      ⟨"g2", "hi", "s1", "group", "G", Status.sent, none⟩ "n2" 7).2 rfl true⟩

/-! ### C9: `read_at` is not write-once -/

/-- C9 (counterexample): mark-read performs an unconditional UPDATE — no
check that `read_at` is still null — so two successive mark-read calls with
different supplied timestamps first set `read_at` to 5, then change the
already non-null value to 11, contradicting "set exactly once". -/
theorem C9_counterexample :
    (((markNotificationRead
        ⟨[], [], [⟨"n1", "u1", some "g1", "m", none, 0⟩], [], [], [], []⟩
        true "n1" "u1" (some 5) 9).1.notifications.find?
          (fun n => n.id == "n1" && n.user_id == "u1")).map
        Notification.read_at = some (some 5))
    ∧ (((markNotificationRead
        (markNotificationRead
          ⟨[], [], [⟨"n1", "u1", some "g1", "m", none, 0⟩], [], [], [], []⟩
          true "n1" "u1" (some 5) 9).1
        true "n1" "u1" (some 11) 12).1.notifications.find?
          (fun n => n.id == "n1" && n.user_id == "u1")).map
        Notification.read_at = some (some 11))
    ∧ (some 5 : Option Nat) ≠ some 11 := by
  decide

/-- C9 (amended): `read_at` is null at creation, and the mark-read operation
unconditionally overwrites it with the supplied timestamp (or the current
instant when none is supplied) — a non-null value, but one that a later
mark-read call can overwrite again: the field is not set exactly once. -/
theorem C9_mark_read_overwrites (st : BrokerState) (nid uid : String)
    (t : Option Nat) (now : Nat) :
    (∀ n, (markNotificationRead st true nid uid t now).2 = Except.ok n →
        n.read_at = some (t.getD now))
    ∧ ((st.notifications.find?
          (fun n => n.id == nid && n.user_id == uid)).isSome = true →
        ((markNotificationRead st true nid uid t now).1.notifications.find?
          (fun n => n.id == nid && n.user_id == uid)).map
          Notification.read_at = some (some (t.getD now)))
    ∧ (∀ stG inp nidG nowG, (inp.recipient_type == "user") = true →
        ((postGreeting stG inp true true nidG nowG :
            BrokerState × List (Nat × Event) × Except BrokerErr
              Greeting).1.notifications.getLast?).map
          Notification.read_at = some none) := by
  refine ⟨?_, ?_, ?_⟩
  · intro n hn
    cases hfind : st.notifications.find?
        (fun n => n.id == nid && n.user_id == uid) with
    | none => simp [markNotificationRead, hfind] at hn
    | some n0 =>
      have : { n0 with read_at := some (t.getD now) } = n := by
        simpa [markNotificationRead, hfind] using hn
      simp [← this]
  · intro h
    cases hfind : st.notifications.find?
        (fun n => n.id == nid && n.user_id == uid) with
    | none => rw [hfind] at h; simp at h
    | some n0 =>
      have hpn : (n0.id == nid && n0.user_id == uid) = true := by
        simpa using List.find?_some hfind
      rw [show (markNotificationRead st true nid uid t now).1.notifications =
            st.notifications.map (fun x =>
              if x.id == nid && x.user_id == uid then
                { n0 with read_at := some (t.getD now) } else x) by
          simp [markNotificationRead, hfind]]
      rw [find?_notif_update st.notifications nid uid
            { n0 with read_at := some (t.getD now) } hpn, hfind]
      rfl
  · intro stG inp nidG nowG h
    simp [postGreeting, h, List.getLast?_concat]

/-- C9 witness: the amended theorem at a concrete notification — mark-read
with supplied timestamp 5 stores `read_at = 5`, and a freshly materialized
notification has `read_at` null. -/
theorem C9_mark_read_overwrites_witness :
    (((markNotificationRead
        ⟨[], [], [⟨"n1", "u1", some "g1", "m", none, 0⟩], [], [], [], []⟩
        true "n1" "u1" (some 5) 9).1.notifications.find?
          (fun n => n.id == "n1" && n.user_id == "u1")).map
        Notification.read_at = some (some 5))
    ∧ ((postGreeting ⟨[], [], [], [], [], [], []⟩
          ⟨"g1", "hi", "s1", "user", "u1", Status.sent, none⟩
          true true "n1" 7).1.notifications.getLast?).map
        Notification.read_at = some none :=
  ⟨(C9_mark_read_overwrites
      ⟨[], [], [⟨"n1", "u1", some "g1", "m", none, 0⟩], [], [], [], []⟩
      "n1" "u1" (some 5) 9).2.1 (by decide),
   (C9_mark_read_overwrites
      ⟨[], [], [⟨"n1", "u1", some "g1", "m", none, 0⟩], [], [], [], []⟩
      "n1" "u1" (some 5) 9).2.2 ⟨[], [], [], [], [], [], []⟩
      ⟨"g1", "hi", "s1", "user", "u1", Status.sent, none⟩ "n1" 7 rfl⟩

/-! ### C10: unconditional `join_group` and subsequent group deliveries -/

/-- The receiver set of a successful `send_group_message` broadcast: the
connections that have joined the group's room. -/
theorem sendGroupMessage_receivers (st : BrokerState)
    (inp : CreateChatMessageInput) (now : Nat) :
    (sendGroupMessage st true inp now).2.1.map Prod.fst =
      (st.connections.filter fun c => c.rooms.contains inp.group_id).map
        Conn.cid := by
  simp [sendGroupMessage, ioToEmit]

/-- The receiver set of the `member_joined` broadcast when the group and
user checks pass: again the connections that have joined the group's room. -/
theorem addGroupMember_receivers (st : BrokerState)
    (gid user_id role memberId : String) (now : Nat)
    (hgrp : st.groups.contains gid = true)
    (husr : (st.users.find? (fun u => u.id == user_id)).isSome = true) :
    (addGroupMember st true gid user_id role memberId now).2.1.map Prod.fst =
      (st.connections.filter fun c => c.rooms.contains gid).map Conn.cid := by
  have hg : gid ∈ st.groups := by simpa using hgrp
  simp [addGroupMember, hg, husr, ioToEmit]

/-- C10 (confirmed): `join_group` consults nothing but the registry — its
effect on the connections is identical under any GroupMembers table — and it
is total (no failure path); after it, the joined connection has the group's
room, and any connection holding the room at dispatch time is among the
receivers of every `group_message` and every `member_joined` event targeted
at that group; after `leave_group` the room is gone, and a disconnected
connection is never among the receivers. -/
theorem C10_join_unconditional (st : BrokerState) (cid : Nat) (gid : String)
    (members2 : List GroupMember) (inp : CreateChatMessageInput) (now : Nat)
    (user_id role memberId : String) :
    ((joinGroup st cid gid).connections =
      (joinGroup { st with groupMembers := members2 } cid gid).connections)
    ∧ (∀ c ∈ (joinGroup st cid gid).connections, c.cid = cid →
        c.rooms.contains gid = true)
    ∧ (∀ c ∈ st.connections, c.rooms.contains gid = true →
        inp.group_id = gid →
        c.cid ∈ (sendGroupMessage st true inp now).2.1.map Prod.fst)
    ∧ (st.groups.contains gid = true →
        (st.users.find? (fun u => u.id == user_id)).isSome = true →
        ∀ c ∈ st.connections, c.rooms.contains gid = true →
        c.cid ∈ (addGroupMember st true gid user_id role memberId
          now).2.1.map Prod.fst)
    ∧ (∀ c ∈ (leaveGroup st cid gid).connections, c.cid = cid →
        c.rooms.contains gid = false)
    ∧ (cid ∉ (sendGroupMessage (handleDisconnect st cid) true inp
        now).2.1.map Prod.fst) := by
  refine ⟨rfl, ?_, ?_, ?_, ?_, ?_⟩
  · intro c hc hcid
    rcases List.mem_map.1 hc with ⟨a, ha, rfl⟩
    by_cases hb : (a.cid == cid) = true
    · by_cases hr : gid ∈ a.rooms
      · simp [hb, hr]
      · simp [hb, hr]
    · exfalso
      simp only [if_neg hb] at hcid
      exact hb (by simp [hcid])
  · intro c hc hroom hgid
    subst hgid
    rw [sendGroupMessage_receivers]
    exact List.mem_map.2 ⟨c, List.mem_filter.2 ⟨hc, hroom⟩, rfl⟩
  · intro hgrp husr c hc hroom
    rw [addGroupMember_receivers st gid user_id role memberId now hgrp husr]
    exact List.mem_map.2 ⟨c, List.mem_filter.2 ⟨hc, hroom⟩, rfl⟩
  · intro c hc hcid
    rcases List.mem_map.1 hc with ⟨a, ha, rfl⟩
    by_cases hb : (a.cid == cid) = true
    · simp [hb]
    · exfalso
      simp only [if_neg hb] at hcid
      exact hb (by simp [hcid])
  · intro hmem
    rw [sendGroupMessage_receivers] at hmem
    rcases List.mem_map.1 hmem with ⟨a, ha, hval⟩
    have h1 := List.mem_filter.1 ha
    have h2 := h1.1
    simp only [handleDisconnect] at h2
    have h3 := (List.mem_filter.1 h2).2
    simp [hval] at h3

/-- C10 witness: concrete run — joining group `G` from a registry with a
single connection of a non-member user, then receiving both a group message
and a `member_joined` event there. -/
theorem C10_join_unconditional_witness :
    ((joinGroup ⟨[⟨"u9", "b@x", "Bea", "user"⟩], [], [], ["G"], [], [],
        [⟨4, "u3", ["u3"]⟩]⟩ 4 "G").connections = [⟨4, "u3", ["u3", "G"]⟩])
    ∧ (4 ∈ (sendGroupMessage
        ⟨[⟨"u9", "b@x", "Bea", "user"⟩], [], [], ["G"], [], [],
         [⟨4, "u3", ["u3", "G"]⟩]⟩
        true ⟨"msg1", "G", "u3", "yo"⟩ 3).2.1.map Prod.fst)
    ∧ (4 ∈ (addGroupMember
        ⟨[⟨"u9", "b@x", "Bea", "user"⟩], [], [], ["G"], [], [],
         [⟨4, "u3", ["u3", "G"]⟩]⟩
        true "G" "u9" "member" "m7" 3).2.1.map Prod.fst) :=
  ⟨by decide,
   (C10_join_unconditional
      ⟨[⟨"u9", "b@x", "Bea", "user"⟩], [], [], ["G"], [], [],
       [⟨4, "u3", ["u3", "G"]⟩]⟩ 4 "G" [] ⟨"msg1", "G", "u3", "yo"⟩ 3
      "u9" "member" "m7").2.2.1 ⟨4, "u3", ["u3", "G"]⟩ (by decide)
      (by decide) rfl,
   (C10_join_unconditional
      ⟨[⟨"u9", "b@x", "Bea", "user"⟩], [], [], ["G"], [], [],
       [⟨4, "u3", ["u3", "G"]⟩]⟩ 4 "G" [] ⟨"msg1", "G", "u3", "yo"⟩ 3
      "u9" "member" "m7").2.2.2.1 (by decide) (by decide)
      ⟨4, "u3", ["u3", "G"]⟩ (by decide) (by decide)⟩
